import Mathlib

/-!
Shallow embedding of `tenant_schemas/middleware.py` (django-tenant-schemas).

The middleware file defines:
  - `BaseTenantMiddleware.process_request` — the schema-switch gate;
  - `TenantMiddleware` — hostname resolution, raising `Http404` on miss;
  - `SuspiciousTenantMiddleware` — same lookup, raising `DisallowedHost`;
  - `DefaultTenantMiddleware` — wraps the latter with a fallback lookup by
    `schema_name`.

Python strings are modelled as Lean `String`s, manipulated through their
`.data` character lists. Django ORM `objects.get` is modelled by filtering a
list of tenant records and distinguishing zero, one, and many matches.
The request object and the database connection are merged into one explicit
state record `GateState`; `process_request` additionally returns the list of
observable effects it performed, in order, so temporal claims about the gate
can be stated.
-/

instance {ε α : Type} [DecidableEq ε] [DecidableEq α] : DecidableEq (Except ε α) :=
  fun a b =>
    match a, b with
    | Except.ok x, Except.ok y =>
      if h : x = y then isTrue (by rw [h])
      else isFalse (fun hc => h (by injection hc))
    | Except.error x, Except.error y =>
      if h : x = y then isTrue (by rw [h])
      else isFalse (fun hc => h (by injection hc))
    | Except.ok _, Except.error _ => isFalse (fun hc => Except.noConfusion hc)
    | Except.error _, Except.ok _ => isFalse (fun hc => Except.noConfusion hc)

/-- A tenant record: `schema_name` identifies its database schema,
`domain_url` is the hostname used to reach it. -/
structure Tenant where
  schema_name : String
  domain_url : String
deriving Repr, DecidableEq

/-- Modelled from the spec: `get_public_schema_name` lives in
`tenant_schemas/utils.py`, which is not part of the sources; the spec calls
the public schema name a required constant, and its scenarios use the name
"public" for the public tenant. -/
def get_public_schema_name : String := "public"

/-- Modelled from the spec: `remove_www` lives in `tenant_schemas/utils.py`,
which is not part of the sources; the spec says hostname normalization must
"strip a leading \"www.\" prefix", so this strips the four leading characters
when the string begins with exactly `www.` and is the identity otherwise. -/
def remove_www (hostname : String) : String :=
  if ("www.".data).isPrefixOf hostname.data then String.mk (hostname.data.drop 4)
  else hostname

/-- Python `s.split(sep)[0]` for `sep = ':'`: the part of the string before
the first colon (the whole string when there is no colon). -/
def splitColonHead (s : String) : String :=
  String.mk (s.data.takeWhile (fun c => c ≠ ':'))

/-- Python `s.lower()`, restricted to the ASCII case mapping. -/
def strLower (s : String) : String :=
  String.mk (s.data.map Char.toLower)

/-- Failure of a Django `objects.get` call: no row matched, or more than one
row matched. -/
inductive GetFailure where
  | doesNotExist : GetFailure
  | multipleObjectsReturned : GetFailure
deriving Repr, DecidableEq

/-- Django `TenantModel.objects.get(...)` over an explicit list of tenant
records: succeeds exactly when exactly one record satisfies the predicate. -/
def objectsGet (dir : List Tenant) (p : Tenant → Bool) : Except GetFailure Tenant :=
  match dir.filter p with
  | [t] => Except.ok t
  | [] => Except.error GetFailure.doesNotExist
  | _ => Except.error GetFailure.multipleObjectsReturned

/-- The exception class a hostname middleware raises on a missed lookup:
`TenantMiddleware.TENANT_NOT_FOUND_EXCEPTION = Http404`,
`SuspiciousTenantMiddleware.TENANT_NOT_FOUND_EXCEPTION = DisallowedHost`. -/
inductive ExcKind where
  | http404 : ExcKind
  | disallowedHost : ExcKind
deriving Repr, DecidableEq

/-- A failure escaping a resolver's `get_tenant`: either an instance of the
middleware's `TENANT_NOT_FOUND_EXCEPTION` carrying its message, or an
uncaught `MultipleObjectsReturned` from the ORM. -/
inductive ResolveError where
  | notFound : ExcKind → String → ResolveError
  | multipleObjectsReturned : ResolveError
deriving Repr, DecidableEq

/-- The method `TenantMiddleware.hostname_from_request`:
`remove_www(request.get_host().split(':')[0]).lower()`. -/
def TenantMiddleware.hostname_from_request (host : String) : String :=
  strLower (remove_www (splitColonHead host))

/-- Body shared by `TenantMiddleware.get_tenant` and its subclasses, with the
class attribute `TENANT_NOT_FOUND_EXCEPTION` as a parameter: compute the
hostname, `objects.get(domain_url=hostname)`, and on `DoesNotExist` raise
`TENANT_NOT_FOUND_EXCEPTION('No tenant for hostname "%s"' % hostname)`. -/
def hostnameGetTenant (TENANT_NOT_FOUND_EXCEPTION : ExcKind) (dir : List Tenant)
    (host : String) : Except ResolveError Tenant :=
  let hostname := TenantMiddleware.hostname_from_request host
  match objectsGet dir (fun t => t.domain_url == hostname) with
  | Except.ok t => Except.ok t
  | Except.error GetFailure.doesNotExist =>
      Except.error (ResolveError.notFound TENANT_NOT_FOUND_EXCEPTION
        ("No tenant for hostname \"" ++ hostname ++ "\""))
  | Except.error GetFailure.multipleObjectsReturned =>
      Except.error ResolveError.multipleObjectsReturned

/-- The method `TenantMiddleware.get_tenant`, with
`TENANT_NOT_FOUND_EXCEPTION = Http404`. -/
def TenantMiddleware.get_tenant (dir : List Tenant) (host : String) :
    Except ResolveError Tenant :=
  hostnameGetTenant ExcKind.http404 dir host

/-- The method `SuspiciousTenantMiddleware.get_tenant`: the inherited lookup with
`TENANT_NOT_FOUND_EXCEPTION = DisallowedHost`. -/
def SuspiciousTenantMiddleware.get_tenant (dir : List Tenant) (host : String) :
    Except ResolveError Tenant :=
  hostnameGetTenant ExcKind.disallowedHost dir host

/-- Python falsiness of an optional string: `None` and `""` are falsy. -/
def pyStrFalsy : Option String → Bool
  | none => true
  | some s => s.isEmpty

/-- The schema name `DefaultTenantMiddleware.get_tenant` uses for its fallback
lookup: `DEFAULT_SCHEMA_NAME`, replaced by `get_public_schema_name()` when it
is falsy (`if not schema_name`). -/
def DefaultTenantMiddleware.effective_schema_name
    (DEFAULT_SCHEMA_NAME : Option String) : String :=
  if pyStrFalsy DEFAULT_SCHEMA_NAME then get_public_schema_name
  else DEFAULT_SCHEMA_NAME.getD ""

/-- The method `DefaultTenantMiddleware.get_tenant`: delegate to the superclass; on its
`TENANT_NOT_FOUND_EXCEPTION` (`DisallowedHost`, inherited from
`SuspiciousTenantMiddleware`) retry `objects.get(schema_name=schema_name)`
with the fallback schema name, and on `DoesNotExist` there re-raise the
originally caught exception object. -/
def DefaultTenantMiddleware.get_tenant (DEFAULT_SCHEMA_NAME : Option String)
    (dir : List Tenant) (host : String) : Except ResolveError Tenant :=
  match SuspiciousTenantMiddleware.get_tenant dir host with
  | Except.ok t => Except.ok t
  | Except.error (ResolveError.notFound ExcKind.disallowedHost msg) =>
      let e := ResolveError.notFound ExcKind.disallowedHost msg
      let schema_name := DefaultTenantMiddleware.effective_schema_name DEFAULT_SCHEMA_NAME
      match objectsGet dir (fun t => t.schema_name == schema_name) with
      | Except.ok t => Except.ok t
      | Except.error GetFailure.doesNotExist => Except.error e
      | Except.error GetFailure.multipleObjectsReturned =>
          Except.error ResolveError.multipleObjectsReturned
  | Except.error e => Except.error e

/-- Per-request mutable state seen by the gate: the connection's current
schema (`connection.set_schema_to_public` / `connection.set_tenant`), the
number of `ContentType.objects.clear_cache()` calls so far, and the request
object's `tenant` and `urlconf` attributes. -/
structure GateState where
  activeSchema : String
  cacheClears : Nat
  reqTenant : Option Tenant
  reqUrlconf : Option String
deriving Repr, DecidableEq

/-- Observable effects of one `process_request` run, in order. `lookupInvoked`
records the connection's schema at the moment `get_tenant` is called. -/
inductive GateEvent where
  | setSchemaToPublic : GateEvent
  | lookupInvoked : String → GateEvent
  | tenantAttached : Tenant → GateEvent
  | schemaSwitched : String → GateEvent
  | cacheCleared : GateEvent
  | urlconfOverridden : String → GateEvent
deriving Repr, DecidableEq

/-- Failure of a `process_request` run: a propagated resolver exception, or
the `Exception("Trying to set current tenant to None!")` raised when the
resolver returned `None`. -/
inductive GateError where
  | resolverError : ResolveError → GateError
  | tenantNone : GateError
deriving Repr, DecidableEq

/-- A pluggable `get_tenant` strategy as the gate sees it: it may have its
own side effects on the state, and returns a tenant, `None`, or raises. -/
def Resolver : Type :=
  GateState → String → GateState × Except ResolveError (Option Tenant)

/-- `BaseTenantMiddleware.process_request`, step by step:
`connection.set_schema_to_public()`; `tenant = self.get_tenant(request)`
(propagating whatever it raises); raise on `tenant is None`;
`request.tenant = tenant`; `connection.set_tenant(request.tenant)`;
`ContentType.objects.clear_cache()`; and when `settings` has a
`PUBLIC_SCHEMA_URLCONF` and the tenant's `schema_name` is the public one,
`request.urlconf = settings.PUBLIC_SCHEMA_URLCONF`. -/
def BaseTenantMiddleware.process_request (get_tenant : Resolver)
    (PUBLIC_SCHEMA_URLCONF : Option String) (host : String) (s0 : GateState) :
    GateState × List GateEvent × Except GateError Unit :=
  let s1 : GateState := { s0 with activeSchema := get_public_schema_name }
  let ev1 : List GateEvent :=
    [GateEvent.setSchemaToPublic, GateEvent.lookupInvoked s1.activeSchema]
  match get_tenant s1 host with
  | (s2, Except.error e) => (s2, ev1, Except.error (GateError.resolverError e))
  | (s2, Except.ok none) => (s2, ev1, Except.error GateError.tenantNone)
  | (s2, Except.ok (some tenant)) =>
    let s3 : GateState := { s2 with reqTenant := some tenant }
    let s4 : GateState := { s3 with activeSchema := tenant.schema_name }
    let s5 : GateState := { s4 with cacheClears := s4.cacheClears + 1 }
    let ev2 : List GateEvent := ev1 ++
      [GateEvent.tenantAttached tenant,
       GateEvent.schemaSwitched tenant.schema_name,
       GateEvent.cacheCleared]
    match PUBLIC_SCHEMA_URLCONF with
    | some conf =>
      if tenant.schema_name == get_public_schema_name then
        ({ s5 with reqUrlconf := some conf },
         ev2 ++ [GateEvent.urlconfOverridden conf], Except.ok ())
      else (s5, ev2, Except.ok ())
    | none => (s5, ev2, Except.ok ())

/-- A resolver with no side effects of its own, never returning `None`: how
the three hostname middleware classes plug into the gate. -/
def pureResolver (g : String → Except ResolveError Tenant) : Resolver :=
  fun s host => (s, (g host).map some)

/-- Unfolding equation for the gate, used to reason about it one resolver
outcome at a time. -/
theorem process_request_eq (f : Resolver) (cfg : Option String) (host : String)
    (s0 : GateState) :
    BaseTenantMiddleware.process_request f cfg host s0 =
      match f { s0 with activeSchema := get_public_schema_name } host with
      | (s2, Except.error e) =>
        (s2, [GateEvent.setSchemaToPublic,
              GateEvent.lookupInvoked get_public_schema_name],
         Except.error (GateError.resolverError e))
      | (s2, Except.ok none) =>
        (s2, [GateEvent.setSchemaToPublic,
              GateEvent.lookupInvoked get_public_schema_name],
         Except.error GateError.tenantNone)
      | (s2, Except.ok (some tenant)) =>
        let s5 : GateState :=
          { s2 with reqTenant := some tenant, activeSchema := tenant.schema_name,
                    cacheClears := s2.cacheClears + 1 }
        let ev2 : List GateEvent :=
          [GateEvent.setSchemaToPublic,
           GateEvent.lookupInvoked get_public_schema_name,
           GateEvent.tenantAttached tenant,
           GateEvent.schemaSwitched tenant.schema_name,
           GateEvent.cacheCleared]
        match cfg with
        | some conf =>
          if tenant.schema_name == get_public_schema_name then
            ({ s5 with reqUrlconf := some conf },
             ev2 ++ [GateEvent.urlconfOverridden conf], Except.ok ())
          else (s5, ev2, Except.ok ())
        | none => (s5, ev2, Except.ok ()) := by
  unfold BaseTenantMiddleware.process_request
  rcases h : f { s0 with activeSchema := get_public_schema_name } host with ⟨s2, r⟩
  rcases r with e | t
  · simp [h]
  · rcases t with _ | t
    · simp [h]
    · rcases cfg with _ | conf
      · simp [h]
      · by_cases hp : t.schema_name == get_public_schema_name <;> simp [h, hp]

/-- Claim C1: on every successful run of `process_request` (the resolver
returns a non-null tenant and no step raises, the resolver itself clearing no
cache), the connection's active schema afterwards equals the resolved
tenant's `schema_name`, `request.tenant` is set to that tenant, and the
content-type cache has been invalidated exactly once during the run. -/
theorem C1_gate_success_postcondition (f : Resolver) (cfg : Option String)
    (host : String) (s0 s2 : GateState) (t : Tenant)
    (hres : f { s0 with activeSchema := get_public_schema_name } host =
      (s2, Except.ok (some t)))
    (hcache : s2.cacheClears = s0.cacheClears) :
    (BaseTenantMiddleware.process_request f cfg host s0).2.2 = Except.ok () ∧
    (BaseTenantMiddleware.process_request f cfg host s0).1.activeSchema =
      t.schema_name ∧
    (BaseTenantMiddleware.process_request f cfg host s0).1.reqTenant = some t ∧
    (BaseTenantMiddleware.process_request f cfg host s0).1.cacheClears =
      s0.cacheClears + 1 ∧
    (BaseTenantMiddleware.process_request f cfg host s0).2.1.count
      GateEvent.cacheCleared = 1 := by
  rw [process_request_eq, hres]
  rcases cfg with _ | conf
  · simp [hcache, List.count_cons, List.count_nil]
  · by_cases hp : t.schema_name == get_public_schema_name <;>
      simp [hp, hcache, List.count_cons, List.count_nil, List.count_append]

/-- Claim C1 witness: a concrete successful run through the hostname
resolver. -/
theorem C1_gate_success_postcondition_witness :
    (BaseTenantMiddleware.process_request
      (pureResolver (TenantMiddleware.get_tenant [⟨"t1", "tenant1.example.com"⟩]))
      none "tenant1.example.com" ⟨"leftover", 0, none, none⟩).2.2 = Except.ok () ∧
    (BaseTenantMiddleware.process_request
      (pureResolver (TenantMiddleware.get_tenant [⟨"t1", "tenant1.example.com"⟩]))
      none "tenant1.example.com" ⟨"leftover", 0, none, none⟩).1.activeSchema =
        Tenant.schema_name ⟨"t1", "tenant1.example.com"⟩ ∧
    (BaseTenantMiddleware.process_request
      (pureResolver (TenantMiddleware.get_tenant [⟨"t1", "tenant1.example.com"⟩]))
      none "tenant1.example.com" ⟨"leftover", 0, none, none⟩).1.reqTenant =
        some ⟨"t1", "tenant1.example.com"⟩ ∧
    (BaseTenantMiddleware.process_request
      (pureResolver (TenantMiddleware.get_tenant [⟨"t1", "tenant1.example.com"⟩]))
      none "tenant1.example.com" ⟨"leftover", 0, none, none⟩).1.cacheClears = 0 + 1 ∧
    (BaseTenantMiddleware.process_request
      (pureResolver (TenantMiddleware.get_tenant [⟨"t1", "tenant1.example.com"⟩]))
      none "tenant1.example.com" ⟨"leftover", 0, none, none⟩).2.1.count
        GateEvent.cacheCleared = 1 :=
  C1_gate_success_postcondition
    (pureResolver (TenantMiddleware.get_tenant [⟨"t1", "tenant1.example.com"⟩]))
    none "tenant1.example.com" ⟨"leftover", 0, none, none⟩
    ⟨get_public_schema_name, 0, none, none⟩
    ⟨"t1", "tenant1.example.com"⟩ (by decide) (by decide)

/-- Claim C2: on every request the gate first switches the connection to the
public schema and only then invokes the resolver, so the tenant-directory
lookup always runs with the public schema active (the recorded schema at
lookup time is the public one, and the gate's behaviour does not depend on
the schema the connection had on entry). -/
theorem C2_lookup_runs_on_public_schema (f : Resolver) (cfg : Option String)
    (host : String) (s0 : GateState) :
    (∃ rest, (BaseTenantMiddleware.process_request f cfg host s0).2.1 =
      GateEvent.setSchemaToPublic ::
        GateEvent.lookupInvoked get_public_schema_name :: rest) ∧
    ∀ sch : String,
      BaseTenantMiddleware.process_request f cfg host
          { s0 with activeSchema := sch } =
        BaseTenantMiddleware.process_request f cfg host s0 := by
  constructor
  · rw [process_request_eq]
    rcases h : f { s0 with activeSchema := get_public_schema_name } host with ⟨s2, r⟩
    rcases r with e | t
    · exact ⟨[], rfl⟩
    · rcases t with _ | t
      · exact ⟨[], rfl⟩
      · rcases cfg with _ | conf
        · exact ⟨[GateEvent.tenantAttached t,
            GateEvent.schemaSwitched t.schema_name, GateEvent.cacheCleared], rfl⟩
        · by_cases hp : t.schema_name == get_public_schema_name <;> simp [hp]
  · intro sch
    rw [process_request_eq, process_request_eq]

/-- Claim C5: whenever the resolver's `get_tenant` returns `None`, the gate
raises the "Trying to set current tenant to None!" error and stops: the
final state is exactly the resolver's output state (no tenant-schema switch,
no cache invalidation, no routing override past that point), and the only
gate effects are the forced public switch and the lookup itself. -/
theorem C5_null_tenant_halts_gate (f : Resolver) (cfg : Option String)
    (host : String) (s0 s2 : GateState)
    (hres : f { s0 with activeSchema := get_public_schema_name } host =
      (s2, Except.ok none)) :
    BaseTenantMiddleware.process_request f cfg host s0 =
      (s2, [GateEvent.setSchemaToPublic,
            GateEvent.lookupInvoked get_public_schema_name],
       Except.error GateError.tenantNone) := by
  rw [process_request_eq, hres]

/-- Claim C5 witness: a resolver that returns `None` without touching the
state; the gate halts with its state still on the public schema. -/
theorem C5_null_tenant_halts_gate_witness :
    BaseTenantMiddleware.process_request (fun s _ => (s, Except.ok none))
        (some "public_urls") "acme.com" ⟨"leftover", 3, none, none⟩ =
      (⟨get_public_schema_name, 3, none, none⟩,
       [GateEvent.setSchemaToPublic,
        GateEvent.lookupInvoked get_public_schema_name],
       Except.error GateError.tenantNone) :=
  C5_null_tenant_halts_gate (fun s _ => (s, Except.ok none)) (some "public_urls")
    "acme.com" ⟨"leftover", 3, none, none⟩
    ⟨get_public_schema_name, 3, none, none⟩ (by decide)

/-- Claim C10: whenever the resolver's `get_tenant` raises, the failure
propagates out of the gate wrapped around the very same error, the final
state is exactly the resolver's output state (for the side-effect-free
hostname resolvers: the entry state with the schema forced to public, so
`request.tenant` is never assigned), and no switch, cache-clear, or routing
event happens after the lookup. -/
theorem C10_resolver_failure_propagates (f : Resolver) (cfg : Option String)
    (host : String) (s0 s2 : GateState) (e : ResolveError)
    (hres : f { s0 with activeSchema := get_public_schema_name } host =
      (s2, Except.error e)) :
    BaseTenantMiddleware.process_request f cfg host s0 =
      (s2, [GateEvent.setSchemaToPublic,
            GateEvent.lookupInvoked get_public_schema_name],
       Except.error (GateError.resolverError e)) := by
  rw [process_request_eq, hres]

/-- Claim C10 witness: the hostname resolver on an unknown host; the gate
ends with the entry state switched to public, `request.tenant` untouched,
and the resolver's `Http404` wrapped unchanged. -/
theorem C10_resolver_failure_propagates_witness :
    BaseTenantMiddleware.process_request
        (pureResolver (TenantMiddleware.get_tenant []))
        none "unknown.example.com" ⟨"leftover", 5, none, some "old_urls"⟩ =
      (⟨get_public_schema_name, 5, none, some "old_urls"⟩,
       [GateEvent.setSchemaToPublic,
        GateEvent.lookupInvoked get_public_schema_name],
       Except.error (GateError.resolverError (ResolveError.notFound
         ExcKind.http404 "No tenant for hostname \"unknown.example.com\""))) :=
  C10_resolver_failure_propagates (pureResolver (TenantMiddleware.get_tenant []))
    none "unknown.example.com" ⟨"leftover", 5, none, some "old_urls"⟩
    ⟨get_public_schema_name, 5, none, some "old_urls"⟩
    (ResolveError.notFound ExcKind.http404
      "No tenant for hostname \"unknown.example.com\"") (by decide)

/-- Claim C8: on a successful gate run, `request.urlconf` is overridden with
`settings.PUBLIC_SCHEMA_URLCONF` exactly when that setting exists and the
resolved tenant's `schema_name` is the public schema name; in every other
case the gate leaves the request's `urlconf` field as the resolver left it. -/
theorem C8_urlconf_override_iff (f : Resolver) (cfg : Option String)
    (host : String) (s0 s2 : GateState) (t : Tenant)
    (hres : f { s0 with activeSchema := get_public_schema_name } host =
      (s2, Except.ok (some t))) :
    (cfg.isSome = true ∧ t.schema_name = get_public_schema_name →
      (BaseTenantMiddleware.process_request f cfg host s0).1.reqUrlconf = cfg) ∧
    (¬ (cfg.isSome = true ∧ t.schema_name = get_public_schema_name) →
      (BaseTenantMiddleware.process_request f cfg host s0).1.reqUrlconf =
        s2.reqUrlconf) := by
  rw [process_request_eq, hres]
  rcases cfg with _ | conf
  · exact ⟨fun h => by simp at h, fun _ => rfl⟩
  · by_cases hp : t.schema_name == get_public_schema_name
    · exact ⟨fun _ => by simp [hp],
        fun hn => absurd ⟨rfl, by simpa using hp⟩ hn⟩
    · exact ⟨fun h => absurd h.2 (by simpa using hp), fun _ => by simp [hp]⟩

/-- Claim C8 witness: with a public urlconf registered and the public tenant
resolved, the override happens; with no urlconf registered, the field keeps
its prior value. -/
theorem C8_urlconf_override_iff_witness :
    (BaseTenantMiddleware.process_request
      (pureResolver (TenantMiddleware.get_tenant [⟨"public", "site.com"⟩]))
      (some "public_urls") "site.com" ⟨"x", 0, none, none⟩).1.reqUrlconf =
        some "public_urls" ∧
    (BaseTenantMiddleware.process_request
      (pureResolver (TenantMiddleware.get_tenant [⟨"public", "site.com"⟩]))
      none "site.com" ⟨"x", 0, none, some "old"⟩).1.reqUrlconf = some "old" :=
  ⟨(C8_urlconf_override_iff
      (pureResolver (TenantMiddleware.get_tenant [⟨"public", "site.com"⟩]))
      (some "public_urls") "site.com" ⟨"x", 0, none, none⟩
      ⟨get_public_schema_name, 0, none, none⟩ ⟨"public", "site.com"⟩
      (by decide)).1 ⟨rfl, by decide⟩,
   (C8_urlconf_override_iff
      (pureResolver (TenantMiddleware.get_tenant [⟨"public", "site.com"⟩]))
      none "site.com" ⟨"x", 0, none, some "old"⟩
      ⟨get_public_schema_name, 0, none, some "old"⟩ ⟨"public", "site.com"⟩
      (by decide)).2 (by simp)⟩

/-- Claim C4: on a host matching no tenant's `domain_url`, the hostname
resolver raises `Http404` ("page not found") while the permissive resolver,
performing the identical lookup, raises `DisallowedHost`; the two kinds are
distinct. -/
theorem C4_unknown_host_error_kinds (dir : List Tenant) (host : String)
    (hmiss : dir.filter
      (fun t => t.domain_url == TenantMiddleware.hostname_from_request host) = []) :
    TenantMiddleware.get_tenant dir host =
      Except.error (ResolveError.notFound ExcKind.http404
        ("No tenant for hostname \"" ++
          TenantMiddleware.hostname_from_request host ++ "\"")) ∧
    SuspiciousTenantMiddleware.get_tenant dir host =
      Except.error (ResolveError.notFound ExcKind.disallowedHost
        ("No tenant for hostname \"" ++
          TenantMiddleware.hostname_from_request host ++ "\"")) ∧
    ExcKind.http404 ≠ ExcKind.disallowedHost := by
  refine ⟨?_, ?_, by decide⟩ <;>
    simp [TenantMiddleware.get_tenant, SuspiciousTenantMiddleware.get_tenant,
      hostnameGetTenant, objectsGet, hmiss]

/-- Claim C4 witness: an empty tenant directory on a concrete host. -/
theorem C4_unknown_host_error_kinds_witness :
    TenantMiddleware.get_tenant [] "unknown.example.com" =
      Except.error (ResolveError.notFound ExcKind.http404
        ("No tenant for hostname \"" ++
          TenantMiddleware.hostname_from_request "unknown.example.com" ++ "\"")) ∧
    SuspiciousTenantMiddleware.get_tenant [] "unknown.example.com" =
      Except.error (ResolveError.notFound ExcKind.disallowedHost
        ("No tenant for hostname \"" ++
          TenantMiddleware.hostname_from_request "unknown.example.com" ++ "\"")) ∧
    ExcKind.http404 ≠ ExcKind.disallowedHost :=
  C4_unknown_host_error_kinds [] "unknown.example.com" (by decide)

/-- Claim C3: the default-fallback resolver on an unknown host returns the
unique tenant whose `schema_name` is the fallback schema name (the configured
name, or the public one when none is configured) when such a tenant exists;
when none exists it re-raises the original `DisallowedHost` error verbatim —
the very error the permissive lookup produced, not a new error about the
fallback lookup. -/
theorem C3_default_fallback (d : Option String) (dir : List Tenant)
    (host : String) (T : Tenant)
    (hmiss : dir.filter
      (fun t => t.domain_url == TenantMiddleware.hostname_from_request host) = []) :
    (dir.filter (fun t => t.schema_name ==
        DefaultTenantMiddleware.effective_schema_name d) = [T] →
      DefaultTenantMiddleware.get_tenant d dir host = Except.ok T) ∧
    (dir.filter (fun t => t.schema_name ==
        DefaultTenantMiddleware.effective_schema_name d) = [] →
      DefaultTenantMiddleware.get_tenant d dir host =
        SuspiciousTenantMiddleware.get_tenant dir host ∧
      DefaultTenantMiddleware.get_tenant d dir host =
        Except.error (ResolveError.notFound ExcKind.disallowedHost
          ("No tenant for hostname \"" ++
            TenantMiddleware.hostname_from_request host ++ "\""))) := by
  constructor
  · intro hfb
    simp [DefaultTenantMiddleware.get_tenant, SuspiciousTenantMiddleware.get_tenant,
      hostnameGetTenant, objectsGet, hmiss, hfb]
  · intro hfb
    constructor <;>
      simp [DefaultTenantMiddleware.get_tenant, SuspiciousTenantMiddleware.get_tenant,
        hostnameGetTenant, objectsGet, hmiss, hfb]

/-- Claim C3 witness: with no explicit fallback configured, an unknown host
resolves to the public tenant when it exists, and re-raises the original
`DisallowedHost` when the directory is empty. -/
theorem C3_default_fallback_witness :
    DefaultTenantMiddleware.get_tenant none [⟨"public", "site.com"⟩] "unknown.com" =
      Except.ok ⟨"public", "site.com"⟩ ∧
    (DefaultTenantMiddleware.get_tenant none [] "unknown.com" =
      SuspiciousTenantMiddleware.get_tenant [] "unknown.com" ∧
    DefaultTenantMiddleware.get_tenant none [] "unknown.com" =
      Except.error (ResolveError.notFound ExcKind.disallowedHost
        ("No tenant for hostname \"" ++
          TenantMiddleware.hostname_from_request "unknown.com" ++ "\""))) :=
  ⟨(C3_default_fallback none [⟨"public", "site.com"⟩] "unknown.com"
      ⟨"public", "site.com"⟩ (by decide)).1 (by decide),
   (C3_default_fallback none [] "unknown.com"
      ⟨"public", "site.com"⟩ (by decide)).2 (by decide)⟩

/-- Claim C9: the fallback schema name the default-fallback resolver looks up
is the public schema name for every falsy `DEFAULT_SCHEMA_NAME` — the empty
string exactly as `None` — so its behaviour on a falsy configured name is
identical to the unconfigured one. -/
theorem C9_falsy_default_schema_name (d : Option String) (dir : List Tenant)
    (host : String) (hfalsy : pyStrFalsy d = true) :
    DefaultTenantMiddleware.effective_schema_name d = get_public_schema_name ∧
    DefaultTenantMiddleware.get_tenant d dir host =
      DefaultTenantMiddleware.get_tenant none dir host := by
  have he : DefaultTenantMiddleware.effective_schema_name d =
      get_public_schema_name := by
    unfold DefaultTenantMiddleware.effective_schema_name
    rw [hfalsy]
    rfl
  have hn : DefaultTenantMiddleware.effective_schema_name none =
      get_public_schema_name := rfl
  refine ⟨he, ?_⟩
  unfold DefaultTenantMiddleware.get_tenant
  rw [he, hn]

/-- Claim C9 witness: an empty-string `DEFAULT_SCHEMA_NAME` falls back to the
public schema. -/
theorem C9_falsy_default_schema_name_witness :
    DefaultTenantMiddleware.effective_schema_name (some "") =
      get_public_schema_name ∧
    DefaultTenantMiddleware.get_tenant (some "") [⟨"public", "p.com"⟩]
        "unknown.com" =
      DefaultTenantMiddleware.get_tenant none [⟨"public", "p.com"⟩]
        "unknown.com" :=
  C9_falsy_default_schema_name (some "") [⟨"public", "p.com"⟩] "unknown.com"
    (by decide)

/-- A colon-free character list survives the colon split untouched. -/
theorem takeWhile_ne_colon_of_not_mem (l : List Char) (h : ':' ∉ l) :
    l.takeWhile (fun c => c ≠ ':') = l := by
  induction l with
  | nil => rfl
  | cons a l ih =>
    rw [List.mem_cons, not_or] at h
    have hpa : decide (a ≠ ':') = true := by
      simp only [decide_eq_true_eq]
      exact fun hc => h.1 hc.symm
    simp only [List.takeWhile_cons, hpa, if_true, ih h.2]

/-- The colon split stops exactly at the first colon. -/
theorem takeWhile_ne_colon_append (l m : List Char) (h : ':' ∉ l) :
    (l ++ ':' :: m).takeWhile (fun c => c ≠ ':') = l := by
  induction l with
  | nil =>
    rw [List.nil_append]
    simp [List.takeWhile_cons]
  | cons a l ih =>
    rw [List.mem_cons, not_or] at h
    rw [List.cons_append]
    have hpa : decide (a ≠ ':') = true := by
      simp only [decide_eq_true_eq]
      exact fun hc => h.1 hc.symm
    simp only [List.takeWhile_cons, hpa, if_true, ih h.2]

/-- Dropping the port suffix from a host whose hostname part is colon-free
recovers the hostname part. -/
theorem splitColonHead_append_port (h0 port : String) (hcolon : ':' ∉ h0.data) :
    splitColonHead (h0 ++ ":" ++ port) = h0 := by
  have hdata : (h0 ++ ":" ++ port).data = h0.data ++ ':' :: port.data := by
    simp [String.data_append]
  show String.mk _ = h0
  rw [hdata, takeWhile_ne_colon_append h0.data port.data hcolon]

/-- A colon-free host is left whole by the port split. -/
theorem splitColonHead_of_no_colon (h0 : String) (hcolon : ':' ∉ h0.data) :
    splitColonHead h0 = h0 := by
  show String.mk _ = h0
  rw [takeWhile_ne_colon_of_not_mem h0.data hcolon]

/-- `remove_www` strips a literal lowercase `www.` prefix. -/
theorem remove_www_strips (rest : String) :
    remove_www ("www." ++ rest) = rest := by
  unfold remove_www
  rw [if_pos]
  · show String.mk (("www.".data ++ rest.data).drop 4) = rest
    rfl
  · rw [ List.isPrefixOf_iff_prefix]
    exact ⟨rest.data, (String.data_append "www." rest).symm⟩

/-- `remove_www` leaves a host alone when `www.` is not literally its
prefix. -/
theorem remove_www_id (h0 : String) (hwww : ¬ "www.".data.isPrefixOf h0.data) :
    remove_www h0 = h0 := by
  unfold remove_www
  rw [if_neg]
  simpa using hwww

/-- Claim C6 counterexample: on `WWW.Acme.com:8080` the hostname computed is
`www.acme.com`, not the claimed `acme.com` — the source strips `www.` before
lowercasing, so an uppercase prefix survives. -/
theorem C6_counterexample :
    TenantMiddleware.hostname_from_request "WWW.Acme.com:8080" = "www.acme.com" ∧
    TenantMiddleware.hostname_from_request "WWW.Acme.com:8080" ≠ "acme.com" := by
  decide

/-- Claim C6 (amended): for every host carrying a literal lowercase `www.`
prefix — the rest of the hostname in any letter case — and optionally a
`:port` suffix, `hostname_from_request` strips the port suffix and the
`www.` prefix and lowercases the rest, yielding the bare lowercase host. -/
theorem C6_amended_strip_www_and_port (rest port : String)
    (hcolon : ':' ∉ rest.data) :
    TenantMiddleware.hostname_from_request ("www." ++ rest ++ ":" ++ port) =
      strLower rest ∧
    TenantMiddleware.hostname_from_request ("www." ++ rest) = strLower rest := by
  have hnot : ':' ∉ ("www." ++ rest).data := by
    rw [String.data_append, List.mem_append]
    rintro (hmem | hmem)
    · exact absurd hmem (by decide)
    · exact hcolon hmem
  constructor
  · show strLower (remove_www (splitColonHead ("www." ++ rest ++ ":" ++ port))) = _
    rw [splitColonHead_append_port ("www." ++ rest) port hnot, remove_www_strips]
  · show strLower (remove_www (splitColonHead ("www." ++ rest))) = _
    rw [splitColonHead_of_no_colon ("www." ++ rest) hnot, remove_www_strips]

/-- Claim C6 (amended) witness: `www.Acme.com:8080` yields `acme.com`, with
and without the port. -/
theorem C6_amended_strip_www_and_port_witness :
    TenantMiddleware.hostname_from_request ("www." ++ "Acme.com" ++ ":" ++ "8080") =
      strLower "Acme.com" ∧
    TenantMiddleware.hostname_from_request ("www." ++ "Acme.com") =
      strLower "Acme.com" :=
  C6_amended_strip_www_and_port "Acme.com" "8080" (by decide)

/-- Claim C7 counterexample: a tenant whose stored `domain_url` is not all
lowercase is never found, even by a request host exactly equal to it — the
computed hostname is lowercased but the stored value is compared verbatim. -/
theorem C7_counterexample :
    TenantMiddleware.get_tenant [⟨"acme", "Acme.com"⟩] "Acme.com" =
      Except.error (ResolveError.notFound ExcKind.http404
        "No tenant for hostname \"acme.com\"") ∧
    TenantMiddleware.get_tenant [⟨"acme", "Acme.com"⟩] "Acme.com" ≠
      Except.ok ⟨"acme", "Acme.com"⟩ := by
  decide

/-- Claim C7 (amended): for every tenant `T` that is the unique directory
entry for its `domain_url`, provided that `domain_url` is colon-free and does
not itself start with `www.`, a request whose host is that `domain_url` in
any letter case — with or without a `:port` suffix — resolves to exactly
`T`. -/
theorem C7_amended_domain_lookup (dir : List Tenant) (T : Tenant)
    (h0 port : String)
    (hcolon : ':' ∉ h0.data)
    (hlower : strLower h0 = T.domain_url)
    (hwww : ¬ "www.".data.isPrefixOf T.domain_url.data)
    (huniq : dir.filter (fun t => t.domain_url == T.domain_url) = [T]) :
    TenantMiddleware.get_tenant dir (h0 ++ ":" ++ port) = Except.ok T ∧
    TenantMiddleware.get_tenant dir h0 = Except.ok T := by
  have hwww0 : ¬ "www.".data.isPrefixOf h0.data := by
    intro hpre
    apply hwww
    rw [ List.isPrefixOf_iff_prefix] at hpre ⊢
    have hmap := hpre.map Char.toLower
    have hw : ("www.".data).map Char.toLower = "www.".data := by decide
    have hl : (h0.data).map Char.toLower = T.domain_url.data := by
      have := congrArg String.data hlower
      exact this
    rwa [hw, hl] at hmap
  have hhost : TenantMiddleware.hostname_from_request (h0 ++ ":" ++ port) =
      T.domain_url := by
    show strLower (remove_www (splitColonHead (h0 ++ ":" ++ port))) = _
    rw [splitColonHead_append_port h0 port hcolon, remove_www_id h0 hwww0, hlower]
  have hhost0 : TenantMiddleware.hostname_from_request h0 = T.domain_url := by
    show strLower (remove_www (splitColonHead h0)) = _
    rw [splitColonHead_of_no_colon h0 hcolon, remove_www_id h0 hwww0, hlower]
  constructor <;>
    simp [TenantMiddleware.get_tenant, hostnameGetTenant, objectsGet,
      hhost, hhost0, huniq]

/-- Claim C7 (amended) witness: the tenant stored for `acme.com` is found by
the host `Acme.com`, with and without a port suffix. -/
theorem C7_amended_domain_lookup_witness :
    TenantMiddleware.get_tenant [⟨"acme", "acme.com"⟩] ("Acme.com" ++ ":" ++ "8080") =
      Except.ok ⟨"acme", "acme.com"⟩ ∧
    TenantMiddleware.get_tenant [⟨"acme", "acme.com"⟩] "Acme.com" =
      Except.ok ⟨"acme", "acme.com"⟩ :=
  C7_amended_domain_lookup [⟨"acme", "acme.com"⟩] ⟨"acme", "acme.com"⟩
    "Acme.com" "8080" (by decide) (by decide) (by decide) (by decide)
